import Mathlib

/-!
Shallow embedding of the go-bluesky client library core, translated from
`client.go` / `utils.go` (session token lifecycle manager) and the profile
resolver file (cursor-paginated streaming resolver).

Modelling conventions:
* Go `time.Time` / `time.Duration` become `Int` nanoseconds; `time.Now()` is an
  explicit `now : Int` parameter (`a.Sub(b)` is `a - b`, `time.Until(t)` is
  `t - now`).
* The network transport (`atproto.ServerCreateSession`,
  `atproto.ServerRefreshSession`, `bsky.GraphGetFollowers/GetFollows`) is an
  oracle parameter giving each call's outcome; the embedding counts the
  network calls a code path performs.
* Go wrapped errors (`fmt.Errorf` with `%w`) become an explicit error tree and
  `errors.Is` becomes the recursive `errorsIs`.
* JWT parsing (`jwt.NewParser().ParseUnverified` followed by
  `Claims.GetExpirationTime`) is an oracle `parse : String → Except GoError
  JwtClaims` whose result carries the scope claim and the (fallible) expiry
  claim.
-/

set_option autoImplicit false

namespace GoBluesky

/-- Go error values as seen through `errors.Is`: `sentinel` is `errors.New`,
`wrapV` is `fmt.Errorf("%w: %v", outer, detail)` (only `outer` is in the
unwrap chain), `wrapW` is `fmt.Errorf("%w: %w", a, b)` (both in the chain),
`transport` and `decodeFail` stand for opaque errors produced by the XRPC
transport and the JWT library, `ctxCanceled` is `context.Canceled`. -/
inductive GoError where
  | sentinel (name : String)
  | wrapV (outer : GoError) (detail : String)
  | wrapW (outer inner : GoError)
  | transport (code : Nat)
  | decodeFail (code : Nat)
  | ctxCanceled
deriving DecidableEq, Repr

/-- The `Error()` string of an error, used where Go formats with `%v`. -/
def GoError.errString : GoError → String
  | .sentinel s => s
  | .wrapV outer d => outer.errString ++ ": " ++ d
  | .wrapW a b => a.errString ++ ": " ++ b.errString
  | .transport n => "transport error " ++ toString n
  | .decodeFail n => "decode error " ++ toString n
  | .ctxCanceled => "context canceled"

/-- `errors.Is err target`: walks the `%w` unwrap chain of `err`. -/
def errorsIs : GoError → GoError → Bool
  | .wrapV outer d, target =>
      decide (GoError.wrapV outer d = target) || errorsIs outer target
  | .wrapW a b, target =>
      decide (GoError.wrapW a b = target) || errorsIs a target || errorsIs b target
  | e, target => decide (e = target)

/-- `ErrLoginUnauthorized = errors.New("unauthorized")`. -/
def ErrLoginUnauthorized : GoError := .sentinel "unauthorized"

/-- `ErrMasterCredentials = errors.New("master credentials used")`. -/
def ErrMasterCredentials : GoError := .sentinel "master credentials used"

/-- `ErrSessionExpired = errors.New("session expired")`. -/
def ErrSessionExpired : GoError := .sentinel "session expired"

/-- `time.Minute` in nanoseconds. -/
def timeMinute : Int := 60 * 1000000000

/-- `jwtAsyncRefreshThreshold = 5 * time.Minute`. -/
def jwtAsyncRefreshThreshold : Int := 5 * timeMinute

/-- `jwtSyncRefreshThreshold = 2 * time.Minute`. -/
def jwtSyncRefreshThreshold : Int := 2 * timeMinute

/-- The fields of `atproto.ServerCreateSession_Output` /
`ServerRefreshSession_Output` the client reads. -/
structure Session where
  accessJwt : String
  refreshJwt : String
  handle : String
  did : String
deriving DecidableEq, Repr

/-- `xrpc.AuthInfo` as installed into the client. -/
structure AuthInfo where
  accessJwt : String
  refreshJwt : String
  handle : String
  did : String
deriving DecidableEq, Repr

instance decEqExcept {ε α : Type} [DecidableEq ε] [DecidableEq α] :
    DecidableEq (Except ε α) := fun x y =>
  match x, y with
  | .ok a, .ok b =>
    if h : a = b then .isTrue (by rw [h])
    else .isFalse (by intro hc; cases hc; exact h rfl)
  | .error a, .error b =>
    if h : a = b then .isTrue (by rw [h])
    else .isFalse (by intro hc; cases hc; exact h rfl)
  | .ok _, .error _ => .isFalse (by intro hc; cases hc)
  | .error _, .ok _ => .isFalse (by intro hc; cases hc)

/-- Result of an unverified JWT parse: the `scope` claim (`none` when missing
or not a string) and the outcome of `Claims.GetExpirationTime()`. -/
structure JwtClaims where
  scope : Option String
  getExpirationTime : Except GoError Int
deriving DecidableEq, Repr

/-- The credential store guarded by `jwtLock`: `c.client.Auth`,
`c.jwtCurrentExpire` and `c.jwtRefreshExpire`. -/
structure CredStore where
  auth : AuthInfo
  jwtCurrentExpire : Int
  jwtRefreshExpire : Int
deriving DecidableEq, Repr

/-- The application-password scope marker checked by `Login`. -/
def appPassScope : String := "com.atproto.appPass"

/-- `Client.Login` from `utils.go`: authenticate, reject master credentials by
scope, decode both expiries, then install auth and expiry metadata. The
transport call's outcome is `createSession`, the JWT library is `parse`, and
`pre` is whatever credential store the client held before the call (mutated
only on full success). -/
def Login (createSession : Except GoError Session)
    (parse : String → Except GoError JwtClaims)
    (pre : Option CredStore) : Except GoError Unit × Option CredStore :=
  match createSession with
  | .error e => (.error (.wrapV ErrLoginUnauthorized e.errString), pre)
  | .ok sess =>
    match parse sess.accessJwt with
    | .error e => (.error e, pre)
    | .ok token =>
      if token.scope ≠ some appPassScope then
        (.error (.wrapW ErrLoginUnauthorized ErrMasterCredentials), pre)
      else
        match token.getExpirationTime with
        | .error e => (.error e, pre)
        | .ok current =>
          match parse sess.refreshJwt with
          | .error e => (.error e, pre)
          | .ok token2 =>
            match token2.getExpirationTime with
            | .error e => (.error e, pre)
            | .ok refresh =>
              (.ok (), some { auth := { accessJwt := sess.accessJwt
                                        refreshJwt := sess.refreshJwt
                                        handle := sess.handle
                                        did := sess.did }
                              jwtCurrentExpire := current
                              jwtRefreshExpire := refresh })

/-- Caller-visible outcome of a refresh routine: the Go return value, the
credential store after the call, how many transport calls were issued, and the
`(skip, async)` invocations of `jwtRefreshHook` (empty when no hook is
installed). -/
structure RefreshOutcome where
  result : Except GoError Unit
  state : CredStore
  networkCalls : Nat
  hookCalls : List (Bool × Bool)
deriving DecidableEq, Repr

/-- `Client.refreshJWT(async)` from `utils.go`: re-check the expiry (sync mode
only), fail fast when the refresh token itself is expired, call
`ServerRefreshSession` with the refresh token substituted for the access
token, decode both returned expiries, and atomically swap the store on full
success. `serverRefreshSession` and `parse` are the transport and JWT-library
oracles; `hookInstalled` tells whether `jwtRefreshHook` is non-nil. -/
def refreshJWT (async : Bool) (now : Int) (hookInstalled : Bool)
    (serverRefreshSession : String → Except GoError Session)
    (parse : String → Except GoError JwtClaims)
    (st : CredStore) : RefreshOutcome :=
  if !async && st.jwtCurrentExpire - now > jwtAsyncRefreshThreshold then
    { result := .ok (), state := st, networkCalls := 0
      hookCalls := if hookInstalled then [(true, async)] else [] }
  else
    let hooks : List (Bool × Bool) := if hookInstalled then [(false, async)] else []
    let expires := st.jwtRefreshExpire
    if expires - now < 0 then
      { result := .error (.wrapV ErrSessionExpired
          ("refresh token was valid until " ++ toString expires))
        state := st, networkCalls := 0, hookCalls := hooks }
    else
      match serverRefreshSession st.auth.refreshJwt with
      | .error e => { result := .error e, state := st, networkCalls := 1, hookCalls := hooks }
      | .ok sess =>
        match parse sess.accessJwt with
        | .error e => { result := .error e, state := st, networkCalls := 1, hookCalls := hooks }
        | .ok token =>
          match token.getExpirationTime with
          | .error e => { result := .error e, state := st, networkCalls := 1, hookCalls := hooks }
          | .ok current =>
            match parse sess.refreshJwt with
            | .error e => { result := .error e, state := st, networkCalls := 1, hookCalls := hooks }
            | .ok token2 =>
              match token2.getExpirationTime with
              | .error e => { result := .error e, state := st, networkCalls := 1, hookCalls := hooks }
              | .ok refresh =>
                { result := .ok ()
                  state := { auth := { accessJwt := sess.accessJwt
                                       refreshJwt := sess.refreshJwt
                                       handle := sess.handle
                                       did := sess.did }
                             jwtCurrentExpire := current
                             jwtRefreshExpire := refresh }
                  networkCalls := 1, hookCalls := hooks }

/-- The four branches `maybeRefreshJWT` can take: return immediately
(`validAsync`), acquire the capacity-1 channel slot and spawn a background
refresh, find the slot taken and abandon, or block on a synchronous refresh. -/
inductive RefreshDecision where
  | fresh
  | asyncSpawn
  | asyncAbandon
  | sync
deriving DecidableEq, Repr

/-- The branch selection logic at the top of `Client.maybeRefreshJWT`:
`validAsync`/`validSync` from the expiry read under `jwtLock.RLock`, then the
non-blocking `select` on the capacity-1 `jwtAsyncRefresh` channel, whose
fullness is `slotBusy`. -/
def maybeRefreshDecision (now : Int) (st : CredStore) (slotBusy : Bool) :
    RefreshDecision :=
  let validAsync := st.jwtCurrentExpire - now > jwtAsyncRefreshThreshold
  let validSync := st.jwtCurrentExpire - now > jwtSyncRefreshThreshold
  if validAsync then .fresh
  else if validSync then (if slotBusy then .asyncAbandon else .asyncSpawn)
  else .sync

/-- `Client.maybeRefreshJWT` as seen by the caller at the moment it returns:
the `fresh` branch and both async branches return `nil` without touching the
store or the network on the calling path (the spawned background task is
modelled separately by `refreshJWT true`); the sync branch runs
`refreshJWT false` under the exclusive lock. -/
def maybeRefreshJWT (now : Int) (slotBusy : Bool) (hookInstalled : Bool)
    (serverRefreshSession : String → Except GoError Session)
    (parse : String → Except GoError JwtClaims)
    (st : CredStore) : RefreshOutcome :=
  match maybeRefreshDecision now st slotBusy with
  | .fresh => { result := .ok (), state := st, networkCalls := 0, hookCalls := [] }
  | .asyncSpawn => { result := .ok (), state := st, networkCalls := 0, hookCalls := [] }
  | .asyncAbandon => { result := .ok (), state := st, networkCalls := 0, hookCalls := [] }
  | .sync => refreshJWT false now hookInstalled serverRefreshSession parse st

/-- Events on the capacity-1 `jwtAsyncRefresh` admission channel:
`tryAcquire` is the non-blocking `select { case ch <- struct{}{} ... default }`
of a caller wanting a background refresh; `finish done` is the spawned
goroutine completing `refreshJWT(true)` (whose success flag is `done`) and
executing the unconditional `<-ch`. -/
inductive SlotEvent where
  | tryAcquire
  | finish (succeeded : Bool)
deriving DecidableEq, Repr

/-- One step of the admission slot: the state is the number of background
refresh tasks in flight (= items in the channel). `tryAcquire` admits only
from the empty state; `finish` always releases. -/
def slotStep (n : Nat) : SlotEvent → Nat
  | .tryAcquire => if n = 0 then 1 else n
  | .finish _ => n - 1

/-- Run a trace of slot events from a starting occupancy. -/
def slotRun (n : Nat) (evs : List SlotEvent) : Nat :=
  evs.foldl slotStep n

/-- The fields of a `bsky.GraphGetFollowers_Output` / `GraphGetFollows_Output`
record the resolver reads (`ActorDefs_ProfileView`). -/
structure FollowerRecord where
  handle : String
  did : String
  displayName : Option String
  description : Option String
  avatar : Option String
deriving DecidableEq, Repr

/-- One page of a paginated graph response: the records plus the optional
continuation cursor (`none` signals the collection is exhausted). -/
structure FollowersPage where
  followers : List FollowerRecord
  cursor : Option String
deriving DecidableEq, Repr

/-- The caller-facing fields of `User` (the `client` pointer is dropped). -/
structure User where
  handle : String
  did : String
  name : String
  bio : String
  avatarURL : String
deriving DecidableEq, Repr

/-- The per-record body of the streaming loop: build a `User`, defaulting the
optional display fields to Go zero values when the pointers are nil. -/
def mkUser (r : FollowerRecord) : User :=
  { handle := r.handle
    did := r.did
    name := r.displayName.getD ""
    bio := r.description.getD ""
    avatarURL := r.avatar.getD "" }

/-- Whether `ctx.Done()` is ready at an emission boundary: the cancellation
signal fires once `count` entities have been handed off (`none` = the context
is never cancelled). This resolves the `select` race in favour of the
cancellation branch as soon as it has fired. -/
def ctxFired (cancelAfter : Option Nat) (count : Nat) : Bool :=
  match cancelAfter with
  | none => false
  | some k => count ≥ k

/-- The inner `for _, follower := range res.Followers` loop: at each record
the producer races `ctx.Done()` against the channel send. Returns the users
handed off from this page, the running hand-off count, and whether the
cancellation branch was taken. -/
def emitRecords (cancelAfter : Option Nat) :
    Nat → List FollowerRecord → List User × Nat × Bool
  | count, [] => ([], count, false)
  | count, r :: rest =>
    if ctxFired cancelAfter count then
      ([], count, true)
    else
      let (us, c, canc) := emitRecords cancelAfter (count + 1) rest
      (mkUser r :: us, c, canc)

/-- The observable behaviour of one streaming resolve once the producer
goroutine has finished (the deferred `close` of both channels has then run):
the entities sent on the result channel in order, the value sent on the error
channel (`none` = closed without a value, i.e. success), and the number of
page fetches issued. -/
structure StreamOutcome where
  emitted : List User
  termError : Option GoError
  pagesFetched : Nat
deriving DecidableEq, Repr

/-- The producer goroutine's page loop, shared verbatim between
`ResolveFollowersStreaming` and `ResolveFolloweesStreaming`: fetch a page
(the `script` lists the transport's answer to each successive fetch), emit
the error and stop on failure, hand the records off one by one racing
cancellation, and continue while the response carries a cursor. The `[]`
fallback is unreachable whenever the script covers the run (every theorem
below pins the script's shape). -/
def resolveStreamLoop (cancelAfter : Option Nat) :
    Nat → List (Except GoError FollowersPage) → StreamOutcome
  | _, [] => { emitted := [], termError := none, pagesFetched := 0 }
  | count, resp :: rest =>
    match resp with
    | .error e => { emitted := [], termError := some e, pagesFetched := 1 }
    | .ok page =>
      let (us, count2, canc) := emitRecords cancelAfter count page.followers
      if canc then
        { emitted := us, termError := some .ctxCanceled, pagesFetched := 1 }
      else
        match page.cursor with
        | none => { emitted := us, termError := none, pagesFetched := 1 }
        | some _ =>
          let o := resolveStreamLoop cancelAfter count2 rest
          { emitted := us ++ o.emitted, termError := o.termError
            pagesFetched := o.pagesFetched + 1 }

/-- `Profile.ResolveFollowersStreaming`: starts with an empty cursor and
hand-off count 0. -/
def ResolveFollowersStreaming (cancelAfter : Option Nat)
    (script : List (Except GoError FollowersPage)) : StreamOutcome :=
  resolveStreamLoop cancelAfter 0 script

/-- `Profile.ResolveFolloweesStreaming`: textually the same loop against the
`GraphGetFollows` endpoint, whose responses the script models. -/
def ResolveFolloweesStreaming (cancelAfter : Option Nat)
    (script : List (Except GoError FollowersPage)) : StreamOutcome :=
  resolveStreamLoop cancelAfter 0 script

/-- `Profile.ResolveFollowers`: drain the stream, read the terminal error
channel, and assign `p.Followers` only when no error arrived.
`preFollowers` is the field's value before the call. -/
def ResolveFollowers (cancelAfter : Option Nat)
    (script : List (Except GoError FollowersPage))
    (preFollowers : Option (List User)) :
    Except GoError Unit × Option (List User) :=
  let o := ResolveFollowersStreaming cancelAfter script
  match o.termError with
  | some e => (.error e, preFollowers)
  | none => (.ok (), some o.emitted)

/-- `Profile.ResolveFollowees`: the symmetric draining form for
`p.Followees`. -/
def ResolveFollowees (cancelAfter : Option Nat)
    (script : List (Except GoError FollowersPage))
    (preFollowees : Option (List User)) :
    Except GoError Unit × Option (List User) :=
  let o := ResolveFolloweesStreaming cancelAfter script
  match o.termError with
  | some e => (.error e, preFollowees)
  | none => (.ok (), some o.emitted)

/-- All records of a page list in page-then-record order. -/
def allRecords (ps : List FollowersPage) : List FollowerRecord :=
  ps.foldr (fun p acc => p.followers ++ acc) []

/-- Total record count of a page list. -/
def totalRecords (ps : List FollowersPage) : Nat :=
  (allRecords ps).length

/-- Number of pages the producer fetches before it has seen record `k`
(0-indexed): the page containing that record, plus every page before it. -/
def pagesUntil (k : Nat) : List FollowersPage → Nat
  | [] => 0
  | p :: rest =>
    if k < p.followers.length then 1
    else 1 + pagesUntil (k - p.followers.length) rest

/-- A well-formed finite collection as the server presents it: at least one
page, every page before the last carries a continuation cursor, and the last
page carries none. -/
def wfScript : List FollowersPage → Bool
  | [] => false
  | [p] => p.cursor.isNone
  | p :: rest => p.cursor.isSome && wfScript rest

/-- C1: when the access-token expiry is more than `jwtAsyncRefreshThreshold`
(5 minutes) in the future, `maybeRefreshJWT` (the `EnsureValid` operation) is
a no-op: it returns success immediately, issues zero network calls, and
leaves the credential store — tokens and both expiry fields — unchanged,
regardless of the admission slot or hook. -/
theorem ensureValid_fresh_noop (now : Int) (slotBusy hookInstalled : Bool)
    (srv : String → Except GoError Session)
    (parse : String → Except GoError JwtClaims) (st : CredStore)
    (h : jwtAsyncRefreshThreshold < st.jwtCurrentExpire - now) :
    maybeRefreshJWT now slotBusy hookInstalled srv parse st =
      { result := .ok (), state := st, networkCalls := 0, hookCalls := [] } := by
  unfold maybeRefreshJWT maybeRefreshDecision
  simp [h]

/-- C1 witness: a concrete fresh session (expiry 301 s·10⁹ ns ahead of
`now = 0`) with failing oracles still short-circuits. -/
theorem ensureValid_fresh_noop_witness :
    maybeRefreshJWT 0 false false
        (fun _ => Except.error (GoError.transport 0))
        (fun _ => Except.error (GoError.decodeFail 0))
        { auth := { accessJwt := "acc", refreshJwt := "ref", handle := "alice", did := "did" }
          jwtCurrentExpire := 301000000000, jwtRefreshExpire := 0 } =
      { result := .ok ()
        state := { auth := { accessJwt := "acc", refreshJwt := "ref", handle := "alice", did := "did" }
                   jwtCurrentExpire := 301000000000, jwtRefreshExpire := 0 }
        networkCalls := 0, hookCalls := [] } :=
  ensureValid_fresh_noop 0 false false _ _ _ (by decide)

/-- C5: on the synchronous (blocking) path, when the re-check after the
exclusive lock finds the access expiry already more than
`jwtAsyncRefreshThreshold` in the future (a concurrent caller refreshed
first), `refreshJWT false` skips the network call, reports `skip = true` on
the hook when one is installed, and returns success with the store
untouched. -/
theorem syncRefresh_skipped_success (now : Int) (hookInstalled : Bool)
    (srv : String → Except GoError Session)
    (parse : String → Except GoError JwtClaims) (st : CredStore)
    (h : jwtAsyncRefreshThreshold < st.jwtCurrentExpire - now) :
    refreshJWT false now hookInstalled srv parse st =
      { result := .ok (), state := st, networkCalls := 0
        hookCalls := if hookInstalled then [(true, false)] else [] } := by
  unfold refreshJWT
  simp [h]

/-- C5 witness: concrete skipped sync refresh with an installed hook. -/
theorem syncRefresh_skipped_success_witness :
    refreshJWT false 0 true
        (fun _ => Except.error (GoError.transport 0))
        (fun _ => Except.error (GoError.decodeFail 0))
        { auth := { accessJwt := "acc", refreshJwt := "ref", handle := "alice", did := "did" }
          jwtCurrentExpire := 301000000000, jwtRefreshExpire := 0 } =
      { result := .ok ()
        state := { auth := { accessJwt := "acc", refreshJwt := "ref", handle := "alice", did := "did" }
                   jwtCurrentExpire := 301000000000, jwtRefreshExpire := 0 }
        networkCalls := 0, hookCalls := [(true, false)] } :=
  syncRefresh_skipped_success 0 true _ _ _ (by decide)

/-- C3: when the access expiry is within `jwtSyncRefreshThreshold` (so the
blocking path is taken) and the refresh token's own expiry has already
passed, `maybeRefreshJWT` fails with an error wrapping `ErrSessionExpired`
and carrying the expiry timestamp, issues no network call, and leaves the
store unchanged; `errors.Is` recognises `ErrSessionExpired` on the result. -/
theorem ensureValid_sessionExpired (now : Int) (slotBusy hookInstalled : Bool)
    (srv : String → Except GoError Session)
    (parse : String → Except GoError JwtClaims) (st : CredStore)
    (h1 : st.jwtCurrentExpire - now ≤ jwtSyncRefreshThreshold)
    (h2 : st.jwtRefreshExpire < now) :
    maybeRefreshJWT now slotBusy hookInstalled srv parse st =
      { result := .error (.wrapV ErrSessionExpired
          ("refresh token was valid until " ++ toString st.jwtRefreshExpire))
        state := st, networkCalls := 0
        hookCalls := if hookInstalled then [(false, false)] else [] } ∧
    errorsIs (GoError.wrapV ErrSessionExpired
        ("refresh token was valid until " ++ toString st.jwtRefreshExpire))
      ErrSessionExpired = true := by
  have hc : jwtSyncRefreshThreshold ≤ jwtAsyncRefreshThreshold := by decide
  have hA : ¬ (st.jwtCurrentExpire - now > jwtAsyncRefreshThreshold) :=
    not_lt.mpr (h1.trans hc)
  have hS : ¬ (st.jwtCurrentExpire - now > jwtSyncRefreshThreshold) := not_lt.mpr h1
  have hDead : st.jwtRefreshExpire - now < 0 := by omega
  constructor
  · unfold maybeRefreshJWT maybeRefreshDecision refreshJWT
    simp [hA, hS, hDead]
  · simp [errorsIs, ErrSessionExpired]

/-- C3 witness: expired refresh token (both expiries in the past) at concrete
inputs. -/
theorem ensureValid_sessionExpired_witness :
    maybeRefreshJWT 10 false true
        (fun _ => Except.error (GoError.transport 0))
        (fun _ => Except.error (GoError.decodeFail 0))
        { auth := { accessJwt := "acc", refreshJwt := "ref", handle := "alice", did := "did" }
          jwtCurrentExpire := 3, jwtRefreshExpire := 5 } =
      { result := .error (.wrapV ErrSessionExpired "refresh token was valid until 5")
        state := { auth := { accessJwt := "acc", refreshJwt := "ref", handle := "alice", did := "did" }
                   jwtCurrentExpire := 3, jwtRefreshExpire := 5 }
        networkCalls := 0, hookCalls := [(false, false)] } ∧
    errorsIs (GoError.wrapV ErrSessionExpired "refresh token was valid until 5")
      ErrSessionExpired = true :=
  ensureValid_sessionExpired 10 false true _ _ _ (by decide) (by decide)

/-- C2: when the server accepts the identifier/secret but the decoded access
token's scope claim is not `com.atproto.appPass`, `Login` fails with the
error wrapping both `ErrLoginUnauthorized` and `ErrMasterCredentials`
(`errors.Is` recognises both) and the credential store is left as it was;
when the token carries the application scope and all decodes succeed, `Login`
succeeds and installs the session's tokens, handle and id together with the
decoded expiries. -/
theorem login_master_credentials_policy :
    (∀ (sess : Session) (parse : String → Except GoError JwtClaims)
        (pre : Option CredStore) (token : JwtClaims),
       parse sess.accessJwt = .ok token →
       token.scope ≠ some appPassScope →
       Login (.ok sess) parse pre =
         (.error (.wrapW ErrLoginUnauthorized ErrMasterCredentials), pre) ∧
       errorsIs (GoError.wrapW ErrLoginUnauthorized ErrMasterCredentials)
         ErrLoginUnauthorized = true ∧
       errorsIs (GoError.wrapW ErrLoginUnauthorized ErrMasterCredentials)
         ErrMasterCredentials = true) ∧
    (∀ (sess : Session) (parse : String → Except GoError JwtClaims)
        (pre : Option CredStore) (token token2 : JwtClaims) (current refresh : Int),
       parse sess.accessJwt = .ok token →
       token.scope = some appPassScope →
       token.getExpirationTime = .ok current →
       parse sess.refreshJwt = .ok token2 →
       token2.getExpirationTime = .ok refresh →
       Login (.ok sess) parse pre =
         (.ok (), some { auth := { accessJwt := sess.accessJwt
                                   refreshJwt := sess.refreshJwt
                                   handle := sess.handle
                                   did := sess.did }
                         jwtCurrentExpire := current
                         jwtRefreshExpire := refresh })) := by
  constructor
  · intro sess parse pre token h1 h2
    refine ⟨?_, by decide, by decide⟩
    unfold Login
    simp [h1, h2]
  · intro sess parse pre token token2 current refresh h1 h2 h3 h4 h5
    unfold Login
    simp [h1, h2, h3, h4, h5]

/-- C2 witness: a master-scoped token is rejected with both sentinels and the
prior store kept; an app-scoped token installs handle/id and expiries. -/
theorem login_master_credentials_policy_witness :
    (Login (.ok { accessJwt := "at", refreshJwt := "rt", handle := "alice", did := "did:1" })
        (fun _ => Except.ok { scope := some "full", getExpirationTime := Except.ok (9 : Int) })
        none =
      (.error (.wrapW ErrLoginUnauthorized ErrMasterCredentials), none)) ∧
    errorsIs (GoError.wrapW ErrLoginUnauthorized ErrMasterCredentials)
      ErrLoginUnauthorized = true ∧
    errorsIs (GoError.wrapW ErrLoginUnauthorized ErrMasterCredentials)
      ErrMasterCredentials = true ∧
    (Login (.ok { accessJwt := "at", refreshJwt := "rt", handle := "alice", did := "did:1" })
        (fun _ => Except.ok { scope := some "com.atproto.appPass", getExpirationTime := Except.ok (9 : Int) })
        none =
      (.ok (), some { auth := { accessJwt := "at", refreshJwt := "rt"
                                handle := "alice", did := "did:1" }
                      jwtCurrentExpire := 9, jwtRefreshExpire := 9 })) := by
  have h := login_master_credentials_policy
  have hm := h.1 { accessJwt := "at", refreshJwt := "rt", handle := "alice", did := "did:1" }
    (fun _ => Except.ok { scope := some "full", getExpirationTime := Except.ok (9 : Int) })
    none { scope := some "full", getExpirationTime := Except.ok (9 : Int) }
    (by decide) (by decide)
  have hs := h.2 { accessJwt := "at", refreshJwt := "rt", handle := "alice", did := "did:1" }
    (fun _ => Except.ok { scope := some "com.atproto.appPass", getExpirationTime := Except.ok (9 : Int) })
    none { scope := some "com.atproto.appPass", getExpirationTime := Except.ok (9 : Int) }
    { scope := some "com.atproto.appPass", getExpirationTime := Except.ok (9 : Int) } 9 9
    (by decide) (by decide) (by decide) (by decide) (by decide)
  exact ⟨hm.1, hm.2.1, hm.2.2, hs⟩

/-- Every branch of `refreshJWT` either leaves the store unchanged or returns
success: the atomic swap is the only mutation and sits behind every check. -/
theorem refreshJWT_frame_cases (async : Bool) (now : Int) (hookInstalled : Bool)
    (srv : String → Except GoError Session)
    (parse : String → Except GoError JwtClaims) (st : CredStore) :
    (refreshJWT async now hookInstalled srv parse st).state = st ∨
    (refreshJWT async now hookInstalled srv parse st).result = Except.ok () := by
  unfold refreshJWT
  dsimp only
  repeat' first
    | exact Or.inl rfl
    | exact Or.inr rfl
    | split

/-- C4: whenever a refresh attempt fails — the double-check passed but the
transport call or any of the expiry decodes errored — the error is surfaced
to the caller verbatim and the credential store holds exactly its prior
tokens and expiry fields: first conjunct, any error outcome leaves the store
unchanged; second conjunct, a transport failure (reached because the attempt
was not skipped and the refresh token was still valid) is returned as-is
after exactly one network call with the store untouched. -/
theorem refreshJWT_failure_atomic :
    (∀ (async : Bool) (now : Int) (hookInstalled : Bool)
        (srv : String → Except GoError Session)
        (parse : String → Except GoError JwtClaims) (st : CredStore) (e : GoError),
       (refreshJWT async now hookInstalled srv parse st).result = Except.error e →
       (refreshJWT async now hookInstalled srv parse st).state = st) ∧
    (∀ (async : Bool) (now : Int) (hookInstalled : Bool)
        (srv : String → Except GoError Session)
        (parse : String → Except GoError JwtClaims) (st : CredStore) (e : GoError),
       (async = true ∨ st.jwtCurrentExpire - now ≤ jwtAsyncRefreshThreshold) →
       now ≤ st.jwtRefreshExpire →
       srv st.auth.refreshJwt = Except.error e →
       refreshJWT async now hookInstalled srv parse st =
         { result := .error e, state := st, networkCalls := 1
           hookCalls := if hookInstalled then [(false, async)] else [] }) := by
  constructor
  · intro async now hookInstalled srv parse st e h
    rcases refreshJWT_frame_cases async now hookInstalled srv parse st with hc | hc
    · exact hc
    · rw [h] at hc
      exact absurd hc (by simp)
  · intro async now hookInstalled srv parse st e hnr hd hs
    have h1 : (!async && decide (st.jwtCurrentExpire - now > jwtAsyncRefreshThreshold)) = false := by
      rcases hnr with h | h
      · simp [h]
      · simp [decide_eq_false (not_lt.mpr h)]
    have h2 : ¬ (st.jwtRefreshExpire - now < 0) := by omega
    unfold refreshJWT
    simp [h1, h2, hs]

/-- C4 witness: a failing transport refresh at concrete inputs surfaces the
error and keeps the store. -/
theorem refreshJWT_failure_atomic_witness :
    (refreshJWT true 0 false
        (fun _ => Except.error (GoError.transport 3))
        (fun _ => Except.error (GoError.decodeFail 0))
        { auth := { accessJwt := "acc", refreshJwt := "ref", handle := "alice", did := "did" }
          jwtCurrentExpire := 1, jwtRefreshExpire := 50 }).state =
      { auth := { accessJwt := "acc", refreshJwt := "ref", handle := "alice", did := "did" }
        jwtCurrentExpire := 1, jwtRefreshExpire := 50 } ∧
    refreshJWT true 0 false
        (fun _ => Except.error (GoError.transport 3))
        (fun _ => Except.error (GoError.decodeFail 0))
        { auth := { accessJwt := "acc", refreshJwt := "ref", handle := "alice", did := "did" }
          jwtCurrentExpire := 1, jwtRefreshExpire := 50 } =
      { result := .error (GoError.transport 3)
        state := { auth := { accessJwt := "acc", refreshJwt := "ref", handle := "alice", did := "did" }
                   jwtCurrentExpire := 1, jwtRefreshExpire := 50 }
        networkCalls := 1, hookCalls := [] } := by
  have h := refreshJWT_failure_atomic
  exact ⟨h.1 true 0 false _ _ _ (GoError.transport 3) (by decide),
         h.2 true 0 false _ _ _ (GoError.transport 3) (Or.inl rfl) (by decide) (by decide)⟩

/-- C9: the single-flight discipline of the capacity-1 admission slot —
starting idle, no trace of acquire/finish events ever has more than one
background refresh in flight; a `tryAcquire` against an occupied slot
abandons without queueing (occupancy unchanged); `finish` releases the slot
identically whether the refresh succeeded or failed; and an `EnsureValid`
caller in the NearExpiry window that finds the slot busy returns success
immediately with no network call and no store change. -/
theorem backgroundRefresh_singleFlight :
    (∀ (evs : List SlotEvent) (n : Nat), n ≤ 1 → slotRun n evs ≤ 1) ∧
    (∀ n : Nat, 0 < n → slotStep n .tryAcquire = n) ∧
    (∀ n : Nat, slotStep n (.finish true) = n - 1 ∧ slotStep n (.finish false) = n - 1) ∧
    (∀ (now : Int) (hookInstalled : Bool)
        (srv : String → Except GoError Session)
        (parse : String → Except GoError JwtClaims) (st : CredStore),
       jwtSyncRefreshThreshold < st.jwtCurrentExpire - now →
       st.jwtCurrentExpire - now ≤ jwtAsyncRefreshThreshold →
       maybeRefreshJWT now true hookInstalled srv parse st =
         { result := .ok (), state := st, networkCalls := 0, hookCalls := [] }) := by
  refine ⟨?_, ?_, ?_, ?_⟩
  · intro evs
    induction evs with
    | nil => intro n h; simpa [slotRun] using h
    | cons e rest ih =>
      intro n h
      have hstep : slotStep n e ≤ 1 := by
        cases e with
        | tryAcquire => simp only [slotStep]; split <;> omega
        | finish b => simp only [slotStep]; omega
      simpa [slotRun, List.foldl] using ih (slotStep n e) hstep
  · intro n h
    simp only [slotStep]
    split <;> omega
  · intro n
    exact ⟨rfl, rfl⟩
  · intro now hookInstalled srv parse st h1 h2
    unfold maybeRefreshJWT maybeRefreshDecision
    simp [not_lt.mpr h2, h1]

/-- C9 witness: a concrete double-acquire trace stays at one in-flight task,
the occupied slot rejects without queueing, release is outcome-independent,
and a busy-slot NearExpiry call is a caller-visible no-op. -/
theorem backgroundRefresh_singleFlight_witness :
    slotRun 0 [SlotEvent.tryAcquire, SlotEvent.tryAcquire, SlotEvent.finish true] ≤ 1 ∧
    slotStep 1 SlotEvent.tryAcquire = 1 ∧
    (slotStep 1 (SlotEvent.finish true) = 0 ∧ slotStep 1 (SlotEvent.finish false) = 0) ∧
    maybeRefreshJWT 0 true false
        (fun _ => Except.error (GoError.transport 0))
        (fun _ => Except.error (GoError.decodeFail 0))
        { auth := { accessJwt := "acc", refreshJwt := "ref", handle := "alice", did := "did" }
          jwtCurrentExpire := 200000000000, jwtRefreshExpire := 0 } =
      { result := .ok ()
        state := { auth := { accessJwt := "acc", refreshJwt := "ref", handle := "alice", did := "did" }
                   jwtCurrentExpire := 200000000000, jwtRefreshExpire := 0 }
        networkCalls := 0, hookCalls := [] } := by
  have h := backgroundRefresh_singleFlight
  exact ⟨h.1 [SlotEvent.tryAcquire, SlotEvent.tryAcquire, SlotEvent.finish true] 0 (by decide),
         h.2.1 1 (by decide), h.2.2.1 1,
         h.2.2.2 0 false _ _ _ (by decide) (by decide)⟩

/-- C10: whenever the draining convenience form `ResolveFollowers`
(respectively `ResolveFollowees`) returns an error, the profile's `Followers`
(respectively `Followees`) field holds exactly its value from before the
call: the field is assigned only after the stream drained with no terminal
error. -/
theorem resolveDrain_error_frame :
    (∀ (cancelAfter : Option Nat) (script : List (Except GoError FollowersPage))
        (pre : Option (List User)) (e : GoError),
       (ResolveFollowers cancelAfter script pre).1 = .error e →
       (ResolveFollowers cancelAfter script pre).2 = pre) ∧
    (∀ (cancelAfter : Option Nat) (script : List (Except GoError FollowersPage))
        (pre : Option (List User)) (e : GoError),
       (ResolveFollowees cancelAfter script pre).1 = .error e →
       (ResolveFollowees cancelAfter script pre).2 = pre) := by
  constructor
  · intro cancelAfter script pre e h
    unfold ResolveFollowers at h ⊢
    cases hx : (ResolveFollowersStreaming cancelAfter script).termError with
    | none => simp [hx] at h
    | some e2 => simp [hx]
  · intro cancelAfter script pre e h
    unfold ResolveFollowees at h ⊢
    cases hx : (ResolveFolloweesStreaming cancelAfter script).termError with
    | none => simp [hx] at h
    | some e2 => simp [hx]

/-- C10 witness: a failing first fetch leaves the previously-installed (or
nil) list fields in place. -/
theorem resolveDrain_error_frame_witness :
    (ResolveFollowers none [Except.error (GoError.transport 7)]
        (some [{ handle := "h", did := "d", name := "", bio := "", avatarURL := "" }])).2 =
      some [{ handle := "h", did := "d", name := "", bio := "", avatarURL := "" }] ∧
    (ResolveFollowees none [Except.error (GoError.transport 7)] none).2 = none := by
  have h := resolveDrain_error_frame
  exact ⟨h.1 none [Except.error (GoError.transport 7)]
           (some [{ handle := "h", did := "d", name := "", bio := "", avatarURL := "" }])
           (GoError.transport 7) (by decide),
         h.2 none [Except.error (GoError.transport 7)] none (GoError.transport 7) (by decide)⟩

/-- With no cancellation, the inner loop hands off every record of a page in
order and advances the hand-off count by the page length. -/
theorem emitRecords_none_cancel (rs : List FollowerRecord) :
    ∀ count : Nat, emitRecords none count rs = (rs.map mkUser, count + rs.length, false) := by
  induction rs with
  | nil => intro count; simp [emitRecords]
  | cons r rest ih =>
    intro count
    simp [emitRecords, ctxFired, ih (count + 1)]
    omega

/-- `allRecords` distributes over cons. -/
theorem allRecords_cons (p : FollowersPage) (ps : List FollowersPage) :
    allRecords (p :: ps) = p.followers ++ allRecords ps := rfl

/-- One unfolding step of the page loop on a non-empty script. -/
theorem resolveStreamLoop_cons (cancelAfter : Option Nat) (count : Nat)
    (resp : Except GoError FollowersPage)
    (rest : List (Except GoError FollowersPage)) :
    resolveStreamLoop cancelAfter count (resp :: rest) =
      match resp with
      | .error e => { emitted := [], termError := some e, pagesFetched := 1 }
      | .ok page =>
        let (us, count2, canc) := emitRecords cancelAfter count page.followers
        if canc then
          { emitted := us, termError := some .ctxCanceled, pagesFetched := 1 }
        else
          match page.cursor with
          | none => { emitted := us, termError := none, pagesFetched := 1 }
          | some _ =>
            let o := resolveStreamLoop cancelAfter count2 rest
            { emitted := us ++ o.emitted, termError := o.termError
              pagesFetched := o.pagesFetched + 1 } := rfl

/-- The page loop on an uncancelled, well-formed all-success script emits
every record of every page in page-then-record order, terminates with no
error, and fetches each page exactly once. -/
theorem resolveStreamLoop_success (ps : List FollowersPage) :
    ∀ count : Nat, wfScript ps = true →
      resolveStreamLoop none count (ps.map .ok) =
        { emitted := (allRecords ps).map mkUser, termError := none
          pagesFetched := ps.length } := by
  induction ps with
  | nil => intro count h; simp [wfScript] at h
  | cons p rest ih =>
    intro count h
    cases rest with
    | nil =>
      have hc : p.cursor = none := by
        simpa [wfScript, Option.isNone_iff_eq_none] using h
      simp [resolveStreamLoop, emitRecords_none_cancel, hc, allRecords]
    | cons q rest2 =>
      have hw : p.cursor.isSome = true ∧ wfScript (q :: rest2) = true := by
        simpa [wfScript] using h
      obtain ⟨c, hc⟩ := Option.isSome_iff_exists.mp hw.1
      have hrec := ih (count + p.followers.length) hw.2
      rw [List.map_cons] at hrec
      rw [List.map_cons, resolveStreamLoop_cons]
      simp [emitRecords_none_cancel, hc, hrec, allRecords_cons]

/-- C6: streaming a finite, well-formed collection (every page fetch
succeeds, no cancellation) emits exactly the collection's records as
entities, in server page order and within each page in record order, with no
reordering or deduplication; the producer finishes with the terminal error
channel carrying no value and one fetch per page — for both the follower and
the followee resolver. -/
theorem streaming_success_order (ps : List FollowersPage)
    (h : wfScript ps = true) :
    ResolveFollowersStreaming none (ps.map .ok) =
      { emitted := (allRecords ps).map mkUser, termError := none
        pagesFetched := ps.length } ∧
    ResolveFolloweesStreaming none (ps.map .ok) =
      { emitted := (allRecords ps).map mkUser, termError := none
        pagesFetched := ps.length } :=
  ⟨resolveStreamLoop_success ps 0 h, resolveStreamLoop_success ps 0 h⟩

/-- C6 witness: a concrete two-page, three-record collection streams in
page-then-record order with a clean termination. -/
theorem streaming_success_order_witness :
    ResolveFollowersStreaming none
        [Except.ok { followers := [{ handle := "u1", did := "d1", displayName := some "N1"
                                     description := none, avatar := none },
                                   { handle := "u2", did := "d2", displayName := none
                                     description := none, avatar := none }]
                     cursor := some "c1" },
         Except.ok { followers := [{ handle := "u3", did := "d3", displayName := none
                                     description := some "bio", avatar := some "url" }]
                     cursor := none }] =
      { emitted := [{ handle := "u1", did := "d1", name := "N1", bio := "", avatarURL := "" },
                    { handle := "u2", did := "d2", name := "", bio := "", avatarURL := "" },
                    { handle := "u3", did := "d3", name := "", bio := "bio", avatarURL := "url" }]
        termError := none, pagesFetched := 2 } :=
  (streaming_success_order
    [{ followers := [{ handle := "u1", did := "d1", displayName := some "N1"
                       description := none, avatar := none },
                     { handle := "u2", did := "d2", displayName := none
                       description := none, avatar := none }]
       cursor := some "c1" },
     { followers := [{ handle := "u3", did := "d3", displayName := none
                       description := some "bio", avatar := some "url" }]
       cursor := none }] (by decide)).1

/-- The page loop on a script whose pages all succeed (each with a
continuation cursor) until one fetch fails emits exactly the records of the
successful pages, then the fetch error on the terminal channel, and stops. -/
theorem resolveStreamLoop_error (ps : List FollowersPage) :
    ∀ (count : Nat) (e : GoError) (tail : List (Except GoError FollowersPage)),
      (∀ p ∈ ps, p.cursor.isSome = true) →
      resolveStreamLoop none count (ps.map .ok ++ .error e :: tail) =
        { emitted := (allRecords ps).map mkUser, termError := some e
          pagesFetched := ps.length + 1 } := by
  induction ps with
  | nil => intro count e tail _; simp [resolveStreamLoop, allRecords]
  | cons p rest ih =>
    intro count e tail h
    have hp : p.cursor.isSome = true := h p (by simp)
    obtain ⟨c, hc⟩ := Option.isSome_iff_exists.mp hp
    have hrest : ∀ q ∈ rest, q.cursor.isSome = true := fun q hq => h q (by simp [hq])
    simp [resolveStreamLoop, emitRecords_none_cancel, hc, ih _ e tail hrest, allRecords_cons]

/-- C7: when a page fetch fails mid-collection, the fetch error is emitted on
the terminal error channel and the stream stops there: entities from earlier
pages are exactly what was emitted, no record of the failed page appears, and
no further page is fetched. -/
theorem streaming_fetch_failure (ps : List FollowersPage) (e : GoError)
    (tail : List (Except GoError FollowersPage))
    (h : ∀ p ∈ ps, p.cursor.isSome = true) :
    ResolveFollowersStreaming none (ps.map .ok ++ .error e :: tail) =
      { emitted := (allRecords ps).map mkUser, termError := some e
        pagesFetched := ps.length + 1 } :=
  resolveStreamLoop_error ps 0 e tail h

/-- C7 witness: the second fetch fails; only the first page's record is
emitted and the transport error terminates the stream. -/
theorem streaming_fetch_failure_witness :
    ResolveFollowersStreaming none
        [Except.ok { followers := [{ handle := "u1", did := "d1", displayName := none
                                     description := none, avatar := none }]
                     cursor := some "c1" },
         Except.error (GoError.transport 9)] =
      { emitted := [{ handle := "u1", did := "d1", name := "", bio := "", avatarURL := "" }]
        termError := some (GoError.transport 9), pagesFetched := 2 } :=
  streaming_fetch_failure
    [{ followers := [{ handle := "u1", did := "d1", displayName := none
                       description := none, avatar := none }]
       cursor := some "c1" }] (GoError.transport 9) [] (by decide)

/-- `totalRecords` distributes over cons. -/
theorem totalRecords_cons (p : FollowersPage) (ps : List FollowersPage) :
    totalRecords (p :: ps) = p.followers.length + totalRecords ps := by
  simp [totalRecords, allRecords_cons]

/-- When the cancellation budget outlasts the page, every record is handed
off and the cancellation branch is not taken. -/
theorem emitRecords_before_cancel (k : Nat) (rs : List FollowerRecord) :
    ∀ count : Nat, count + rs.length ≤ k →
      emitRecords (some k) count rs = (rs.map mkUser, count + rs.length, false) := by
  induction rs with
  | nil => intro count h; simp [emitRecords]
  | cons r rest ih =>
    intro count h
    have hf : ¬ (count ≥ k) := by simp at h ⊢; omega
    simp [emitRecords, ctxFired, hf, ih (count + 1) (by simp at h ⊢; omega)]
    omega

/-- When cancellation fires strictly inside the page (after `k - count` of
its records), the producer hands off exactly the records before the boundary
and takes the cancellation branch. -/
theorem emitRecords_cancel_mid (k : Nat) (rs : List FollowerRecord) :
    ∀ count : Nat, count ≤ k → k < count + rs.length →
      emitRecords (some k) count rs =
        ((rs.take (k - count)).map mkUser, k, true) := by
  induction rs with
  | nil => intro count h1 h2; simp at h2; omega
  | cons r rest ih =>
    intro count h1 h2
    by_cases hk : k ≤ count
    · have hck : count = k := le_antisymm h1 hk
      subst hck
      simp [emitRecords, ctxFired]
    · have hstep := ih (count + 1) (by omega) (by simp at h2 ⊢; omega)
      have hsub : k - count = (k - (count + 1)) + 1 := by omega
      simp [emitRecords, ctxFired, show ¬ (count ≥ k) by omega, hstep,
            hsub, List.take_succ_cons]

/-- The page loop under a cancellation signal that fires after `k` total
hand-offs, `k` landing strictly inside the collection: the producer emits
exactly the first `k - count` remaining records, reports `context.Canceled`
on the terminal channel, and fetches only the pages up to the cancellation
boundary. -/
theorem resolveStreamLoop_cancel (k : Nat) (ps : List FollowersPage) :
    ∀ count : Nat, wfScript ps = true → count ≤ k →
      k - count < totalRecords ps →
      resolveStreamLoop (some k) count (ps.map .ok) =
        { emitted := ((allRecords ps).take (k - count)).map mkUser
          termError := some .ctxCanceled
          pagesFetched := pagesUntil (k - count) ps } := by
  induction ps with
  | nil => intro count hw _ _; simp [wfScript] at hw
  | cons p rest ih =>
    intro count hw h1 h2
    by_cases hin : k - count < p.followers.length
    · have hcut := emitRecords_cancel_mid k p.followers count h1 (by omega)
      have htake : (allRecords (p :: rest)).take (k - count) =
          p.followers.take (k - count) := by
        rw [allRecords_cons, List.take_append_of_le_length (by omega)]
      rw [List.map_cons, resolveStreamLoop_cons]
      simp [hcut, htake, pagesUntil, hin]
    · have hall := emitRecords_before_cancel k p.followers count (by omega)
      cases rest with
      | nil =>
        rw [totalRecords_cons] at h2
        simp [totalRecords, allRecords] at h2
        omega
      | cons q rest2 =>
        have hw2 : p.cursor.isSome = true ∧ wfScript (q :: rest2) = true := by
          simpa [wfScript] using hw
        obtain ⟨c, hc⟩ := Option.isSome_iff_exists.mp hw2.1
        have hrec := ih (count + p.followers.length) hw2.2 (by omega)
          (by rw [totalRecords_cons] at h2; omega)
        rw [List.map_cons] at hrec
        have htake : (allRecords (p :: q :: rest2)).take (k - count) =
            p.followers ++ (allRecords (q :: rest2)).take (k - (count + p.followers.length)) := by
          rw [allRecords_cons, List.take_append_eq_append_take,
              List.take_of_length_le (by omega),
              show k - count - p.followers.length = k - (count + p.followers.length) by omega]
        have hpages : pagesUntil (k - count) (p :: q :: rest2) =
            pagesUntil (k - (count + p.followers.length)) (q :: rest2) + 1 := by
          simp [pagesUntil, hin,
                show k - count - p.followers.length = k - (count + p.followers.length) by omega]
          omega
        rw [List.map_cons, resolveStreamLoop_cons]
        simp [hall, hc, hrec, htake, hpages]

/-- C8: when the cancellation signal fires at the hand-off boundary after the
`k`-th entity (with `1 ≤ k` — the caller received at least the first entity —
and `k` strictly inside the collection), the producer stops at that boundary:
it emits `context.Canceled` on the terminal error channel, hands off exactly
the first `k` records (none of the remainder of the current page), fetches no
page beyond the one containing the boundary, and the caller receives strictly
fewer entities than the collection size. -/
theorem streaming_cancellation (ps : List FollowersPage) (k : Nat)
    (hw : wfScript ps = true) (h1 : 1 ≤ k) (h2 : k < totalRecords ps) :
    ResolveFollowersStreaming (some k) (ps.map .ok) =
      { emitted := ((allRecords ps).take k).map mkUser
        termError := some .ctxCanceled
        pagesFetched := pagesUntil k ps } ∧
    (ResolveFollowersStreaming (some k) (ps.map .ok)).emitted.length <
      totalRecords ps := by
  have h := resolveStreamLoop_cancel k ps 0 hw (Nat.zero_le k) (by simpa using h2)
  have h0 : ResolveFollowersStreaming (some k) (ps.map .ok) =
      { emitted := ((allRecords ps).take k).map mkUser
        termError := some .ctxCanceled
        pagesFetched := pagesUntil k ps } := by
    simpa [ResolveFollowersStreaming] using h
  refine ⟨h0, ?_⟩
  rw [h0]
  simp only [List.length_map, List.length_take, totalRecords] at h2 ⊢
  omega

/-- C8 witness: cancelling after the first entity of a two-page, three-record
collection yields one entity, a `Canceled` terminal signal, and no second
page fetch. -/
theorem streaming_cancellation_witness :
    ResolveFollowersStreaming (some 1)
        [Except.ok { followers := [{ handle := "u1", did := "d1", displayName := none
                                     description := none, avatar := none },
                                   { handle := "u2", did := "d2", displayName := none
                                     description := none, avatar := none }]
                     cursor := some "c1" },
         Except.ok { followers := [{ handle := "u3", did := "d3", displayName := none
                                     description := none, avatar := none }]
                     cursor := none }] =
      { emitted := [{ handle := "u1", did := "d1", name := "", bio := "", avatarURL := "" }]
        termError := some .ctxCanceled, pagesFetched := 1 } ∧
    (ResolveFollowersStreaming (some 1)
        [Except.ok { followers := [{ handle := "u1", did := "d1", displayName := none
                                     description := none, avatar := none },
                                   { handle := "u2", did := "d2", displayName := none
                                     description := none, avatar := none }]
                     cursor := some "c1" },
         Except.ok { followers := [{ handle := "u3", did := "d3", displayName := none
                                     description := none, avatar := none }]
                     cursor := none }]).emitted.length < 3 :=
  streaming_cancellation
    [{ followers := [{ handle := "u1", did := "d1", displayName := none
                       description := none, avatar := none },
                     { handle := "u2", did := "d2", displayName := none
                       description := none, avatar := none }]
       cursor := some "c1" },
     { followers := [{ handle := "u3", did := "d3", displayName := none
                       description := none, avatar := none }]
       cursor := none }] 1 (by decide) (by decide) (by decide)

end GoBluesky
